import Mathlib

/-!
# Verification of the ImGui template plugin DSP core (`src/PluginDSP.cpp`)

Shallow embedding of the `ImGuiPluginDSP` class: the flat parameter vector,
the filter bank (one high-pass, six peak bands, one low-pass biquad), the two
exponential value smoothers, and the entry points `setParameterValue`,
`getParameterValue`, `activate`, `run` and `sampleRateChanged`.

Machine floats are modelled as exact rationals (`ℚ`): every claim under
scrutiny is about control flow, clamping and state updates, not about
floating-point rounding.  The transcendental ingredients (the `10^x` of
`db2coef`, the `1 - exp(...)` decay coefficient of the smoothers, and the
trigonometric biquad coefficient formulas of the vendored `Biquad.h`, whose
source is not part of this repository checkout) are abstracted into an
environment `Env` of arbitrary deterministic functions; all theorems are
proved for every environment, which is strictly stronger than proving them
for the concrete transcendental instances.
-/

namespace ImGuiPlugin

/-- Biquad filter type tag (`bq_type_lowpass`, `bq_type_highpass`,
`bq_type_peak` are the only ones used by the plugin). -/
inductive BiquadType where
  | lowpass
  | highpass
  | peak
deriving DecidableEq, Repr

/-- The five biquad transfer-function coefficients (three feed-forward
`a0 a1 a2`, two feedback `b1 b2`). -/
structure BiquadCoeffs where
  a0 : ℚ
  a1 : ℚ
  a2 : ℚ
  b1 : ℚ
  b2 : ℚ
deriving DecidableEq, Repr

/-- Environment of abstracted transcendental functions.

* `tenPow x` stands for `10^x` (used by `db2coef`);
* `smootherCoef tc sr` stands for the smoother decay coefficient
  `1 - exp(-1 / (tc * sr))` (spec §4.3, `ValueSmoother.hpp` is not in this
  checkout);
* `biquadCoeffs ty fc q gain` stands for the standard biquad design
  equations deriving the five coefficients from type, normalized cutoff, Q
  and peak gain (spec §4.1, `Biquad.h` is not in this checkout).

Each is an arbitrary deterministic function; every theorem below holds for
every `Env`. -/
structure Env where
  tenPow : ℚ → ℚ
  smootherCoef : ℚ → ℚ → ℚ
  biquadCoeffs : BiquadType → ℚ → ℚ → ℚ → BiquadCoeffs

/-- A concrete (arbitrary) environment, used only to instantiate closed
witness and counterexample statements; the facts they witness do not depend
on the transcendental functions. -/
def defaultEnv : Env where
  tenPow := fun _ => 1
  smootherCoef := fun _ _ => 1/2
  biquadCoeffs := fun _ _ _ _ => ⟨1, 0, 0, 0, 0⟩

/-- `std::clamp(v, lo, hi)` (well-defined for `lo ≤ hi`, the only way the
plugin calls it). -/
def clampQ (v lo hi : ℚ) : ℚ :=
  max lo (min v hi)

/-- `db2coef` from `PluginDSP.cpp` lines 17-20:
`g > -90 ? pow(10, g * 0.05) : 0`. -/
def db2coef (env : Env) (g : ℚ) : ℚ :=
  if g > -90 then env.tenPow (g * (5/100)) else 0

/-- Modelled from the spec: Filter Unit State (§3) of the vendored
`Biquad.h`, which is not part of this checkout.  It stores the type tag and
the design parameters (normalized cutoff `fc`, resonance `q`, peak gain in
dB) from which the five coefficients are derived deterministically
(`Env.biquadCoeffs`), plus the two delay registers `z1`, `z2`. -/
structure Biquad where
  ty : BiquadType
  fc : ℚ
  q : ℚ
  peakGain : ℚ
  z1 : ℚ
  z2 : ℚ
deriving DecidableEq, Repr

namespace Biquad

/-- Modelled from the spec: `configure`/`setBiquad` sets all design
parameters (coefficients are re-derived; delay registers untouched). -/
def setBiquad (ty : BiquadType) (fc q peakGain : ℚ) (b : Biquad) : Biquad :=
  { b with ty := ty, fc := fc, q := q, peakGain := peakGain }

/-- Modelled from the spec: `setFc` updates the normalized cutoff without
resetting delay state. -/
def setFc (fc : ℚ) (b : Biquad) : Biquad :=
  { b with fc := fc }

/-- Modelled from the spec: `setQ` updates Q without resetting delay
state. -/
def setQ (q : ℚ) (b : Biquad) : Biquad :=
  { b with q := q }

/-- Modelled from the spec: `setPeakGain` rescales the gain term without
touching frequency/Q. -/
def setPeakGain (peakGain : ℚ) (b : Biquad) : Biquad :=
  { b with peakGain := peakGain }

/-- A biquad with zeroed delay registers, as built by the plugin
constructor before `setBiquad`. -/
def init : Biquad :=
  { ty := BiquadType.lowpass, fc := 0, q := 0, peakGain := 0, z1 := 0, z2 := 0 }

/-- Modelled from the spec: `process` applies the transfer function
(transposed direct form II, two delay registers) with the coefficients
derived from the current design parameters, updates the delay registers and
returns the filtered sample. -/
def process (env : Env) (b : Biquad) (x : ℚ) : ℚ × Biquad :=
  let c := env.biquadCoeffs b.ty b.fc b.q b.peakGain
  let out := x * c.a0 + b.z1
  (out, { b with z1 := x * c.a1 + b.z2 - c.b1 * out, z2 := x * c.a2 - c.b2 * out })

end Biquad

/-- Modelled from the spec: Smoother State (§3, §4.3) of DPF's
`ExponentialValueSmoother`, which is not part of this checkout: current
value, target value, time constant and sample rate.  The decay coefficient
is the deterministic function `Env.smootherCoef timeConstant sampleRate`
of the two stored fields, so "recomputing the coefficient" is captured by
updating the field it is derived from. -/
structure Smoother where
  value : ℚ
  target : ℚ
  timeConstant : ℚ
  sampleRate : ℚ
deriving DecidableEq, Repr

namespace Smoother

/-- Modelled from the spec: `setSampleRate` recomputes the decay
coefficient for the new rate. -/
def setSampleRate (sr : ℚ) (s : Smoother) : Smoother :=
  { s with sampleRate := sr }

/-- Modelled from the spec: `setTimeConstant` recomputes the decay
coefficient for the new time constant. -/
def setTimeConstant (tc : ℚ) (s : Smoother) : Smoother :=
  { s with timeConstant := tc }

/-- Modelled from the spec: `setTargetValue`. -/
def setTargetValue (t : ℚ) (s : Smoother) : Smoother :=
  { s with target := t }

/-- Modelled from the spec: `clearToTargetValue` snaps value to target
instantly. -/
def clearToTargetValue (s : Smoother) : Smoother :=
  { s with value := s.target }

/-- Modelled from the spec: `next` advances the value one step toward the
target by `value += (target - value) * coefficient` and returns it. -/
def next (env : Env) (s : Smoother) : ℚ × Smoother :=
  let v := s.value + (s.target - s.value) * env.smootherCoef s.timeConstant s.sampleRate
  (v, { s with value := v })

/-- A smoother with all fields zero, as default-constructed before the
plugin constructor configures it. -/
def init : Smoother :=
  { value := 0, target := 0, timeConstant := 0, sampleRate := 0 }

end Smoother

/-! ## Parameter indices (`enum Parameters`, `PluginDSP.cpp` lines 26-51) -/

def kNumBands : ℕ := 6

def kBandParameterEnabled : ℕ := 0
def kBandParameterGain : ℕ := 1
def kBandParameterFreq : ℕ := 2
def kBandParameterQ : ℕ := 3
def kBandParameterCount : ℕ := 4

def kParamBypass : ℕ := 0
def kParamReset : ℕ := 1
def kParamMainVolume : ℕ := 2
def kParamHighPassEnabled : ℕ := 3
def kParamHighPassFreq : ℕ := 4
def kParamHighPassQ : ℕ := 5
def kParamBandsStart : ℕ := 6
def kParamBandsEnd : ℕ := kParamBandsStart + kBandParameterCount * kNumBands - 1
def kParamLowPassEnabled : ℕ := 30
def kParamLowPassFreq : ℕ := 31
def kParamLowPassQ : ℕ := 32
def kParamCount : ℕ := 33

/-- The whole DSP state of `ImGuiPluginDSP`: the parameter vector
`fParameters` (length `kParamCount`), the filter bank, the two smoothers and
the sample rate held by the `Plugin` base (returned by `getSampleRate`). -/
structure PluginState where
  params : List ℚ
  highpass : Biquad
  lowpass : Biquad
  bands : List Biquad
  smoothDryWet : Smoother
  smoothVolume : Smoother
  sampleRate : ℚ
deriving DecidableEq, Repr

/-- Initial parameter vector: zero-initialised (`fParameters[kParamCount] = {}`),
then the constructor stores the high-pass/low-pass defaults and, per band,
freq 200 and Q 0.707. -/
def initParams : List ℚ :=
  ((((List.replicate kParamCount (0 : ℚ)).set
      kParamHighPassFreq 20).set
      kParamHighPassQ (707/1000)).set
      kParamLowPassFreq 20000).set
      kParamLowPassQ (707/1000)
  |>.set (kParamBandsStart + 0 * kBandParameterCount + kBandParameterFreq) 200
  |>.set (kParamBandsStart + 0 * kBandParameterCount + kBandParameterQ) (707/1000)
  |>.set (kParamBandsStart + 1 * kBandParameterCount + kBandParameterFreq) 200
  |>.set (kParamBandsStart + 1 * kBandParameterCount + kBandParameterQ) (707/1000)
  |>.set (kParamBandsStart + 2 * kBandParameterCount + kBandParameterFreq) 200
  |>.set (kParamBandsStart + 2 * kBandParameterCount + kBandParameterQ) (707/1000)
  |>.set (kParamBandsStart + 3 * kBandParameterCount + kBandParameterFreq) 200
  |>.set (kParamBandsStart + 3 * kBandParameterCount + kBandParameterQ) (707/1000)
  |>.set (kParamBandsStart + 4 * kBandParameterCount + kBandParameterFreq) 200
  |>.set (kParamBandsStart + 4 * kBandParameterCount + kBandParameterQ) (707/1000)
  |>.set (kParamBandsStart + 5 * kBandParameterCount + kBandParameterFreq) 200
  |>.set (kParamBandsStart + 5 * kBandParameterCount + kBandParameterQ) (707/1000)

/-- The plugin constructor (`PluginDSP.cpp` lines 79-120): stores the
defaults, configures the three filter kinds with *unclamped* normalized
cutoffs `storedFreq / sampleRate`, and configures both smoothers (sample
rate, target, 10 ms time constant). -/
def construct (env : Env) (sampleRate : ℚ) : PluginState :=
  { params := initParams
    highpass := Biquad.init.setBiquad BiquadType.highpass (20 / sampleRate) (707/1000) 0
    lowpass := Biquad.init.setBiquad BiquadType.lowpass (20000 / sampleRate) (707/1000) 0
    bands := List.replicate kNumBands
      (Biquad.init.setBiquad BiquadType.peak (200 / sampleRate) (707/1000) 0)
    smoothDryWet :=
      ((Smoother.init.setSampleRate sampleRate).setTargetValue 1).setTimeConstant (1/100)
    smoothVolume :=
      ((Smoother.init.setSampleRate sampleRate).setTargetValue (db2coef env 0)).setTimeConstant (1/100)
    sampleRate := sampleRate }

/-- `reset` (`PluginDSP.cpp` lines 452-456): clears both smoothers to their
target values. -/
def reset (s : PluginState) : PluginState :=
  { s with
    smoothDryWet := s.smoothDryWet.clearToTargetValue
    smoothVolume := s.smoothVolume.clearToTargetValue }

/-- `activate` (`PluginDSP.cpp` lines 461-464): just calls `reset`. -/
def activate (s : PluginState) : PluginState :=
  reset s

/-- `getParameterValue` (`PluginDSP.cpp` lines 362-365): returns
`fParameters[index]` with no bounds check; an index at or beyond
`kParamCount` reads out of bounds of the C array (undefined behavior),
modelled as `none`. -/
def getParameterValue (s : PluginState) (index : ℕ) : Option ℚ :=
  if index < kParamCount then some (s.params.getD index 0) else none

/-- The body of `setParameterValue` (`PluginDSP.cpp` lines 373-447) for an
in-bounds index: stores `value` in the parameter vector first, then the
switch over the index performs the side effect on the filters/smoothers. -/
def setParameterValueTotal (env : Env) (s : PluginState) (index : ℕ) (value : ℚ) : PluginState :=
  let ps := s.params.set index value
  let s := { s with params := ps }
  if index = kParamBypass then
    { s with smoothDryWet := s.smoothDryWet.setTargetValue (if value > 1/2 then 0 else 1) }
  else if index = kParamReset then
    reset s
  else if index = kParamMainVolume then
    { s with smoothVolume := s.smoothVolume.setTargetValue (db2coef env (clampQ value (-90) 30)) }
  else if index = kParamHighPassEnabled then
    if value > 1/2 then
      { s with highpass := s.highpass.setFc (clampQ (ps.getD kParamHighPassFreq 0 / s.sampleRate) (1/2000) (21/50)) }
    else
      { s with highpass := s.highpass.setFc (1/2000) }
  else if index = kParamHighPassFreq then
    if ps.getD kParamHighPassEnabled 0 > 1/2 then
      { s with highpass := s.highpass.setFc (clampQ (value / s.sampleRate) (1/2000) (21/50)) }
    else s
  else if index = kParamHighPassQ then
    { s with highpass := s.highpass.setQ (clampQ value (1/2) 1) }
  else if kParamBandsStart ≤ index ∧ index ≤ kParamBandsEnd then
    let bandIndex := (index - kParamBandsStart) / kBandParameterCount
    let start := kParamBandsStart + bandIndex * kBandParameterCount
    let filter := s.bands.getD bandIndex Biquad.init
    let sub := (index - kParamBandsStart) % kBandParameterCount
    if sub = kBandParameterEnabled then
      { s with bands := s.bands.set bandIndex (filter.setPeakGain (if value > 1/2 then clampQ (ps.getD (start + kBandParameterGain) 0) (-12) 12 else 0)) }
    else if sub = kBandParameterGain then
      if ps.getD (start + kBandParameterEnabled) 0 > 1/2 then
        { s with bands := s.bands.set bandIndex (filter.setPeakGain (clampQ value (-12) 12)) }
      else s
    else if sub = kBandParameterFreq then
      { s with bands := s.bands.set bandIndex (filter.setFc (clampQ (value / s.sampleRate) (1/2000) (21/50))) }
    else
      { s with bands := s.bands.set bandIndex (filter.setQ (clampQ value (1/2) 1)) }
  else if index = kParamLowPassEnabled then
    if value > 1/2 then
      { s with lowpass := s.lowpass.setFc (clampQ (ps.getD kParamLowPassFreq 0 / s.sampleRate) (1/2000) (21/50)) }
    else
      { s with lowpass := s.lowpass.setFc (21/50) }
  else if index = kParamLowPassFreq then
    if ps.getD kParamLowPassEnabled 0 > 1/2 then
      { s with lowpass := s.lowpass.setFc (clampQ (value / s.sampleRate) (1/2000) (21/50)) }
    else s
  else if index = kParamLowPassQ then
    { s with lowpass := s.lowpass.setQ (clampQ value (1/2) 1) }
  else
    s

/-- `setParameterValue` as exposed to the host: the first statement
`fParameters[index] = value` writes out of bounds of the C array when
`index ≥ kParamCount` (undefined behavior), modelled as `none`. -/
def setParameterValue (env : Env) (s : PluginState) (index : ℕ) (value : ℚ) : Option PluginState :=
  if index < kParamCount then some (setParameterValueTotal env s index value) else none

/-- The inner loop of `run`: pushes a sample through the peak bands in
ascending index order, threading each band's updated delay state. -/
def processBands (env : Env) : List Biquad → ℚ → ℚ × List Biquad
  | [], x => (x, [])
  | b :: bs, x =>
    let p := b.process env x
    let r := processBands env bs p.1
    (r.1, p.2 :: r.2)

/-- `run` (`PluginDSP.cpp` lines 470-496), in code order per frame: next
dry/wet, next volume, low-pass, the six bands in ascending order, high-pass
scaled by volume, then `outL[i] = flt * wet + inpL[i] * (1 - wet)`. -/
def run (env : Env) : PluginState → List ℚ → List ℚ × PluginState
  | s, [] => ([], s)
  | s, x :: xs =>
    let wet := s.smoothDryWet.next env
    let vol := s.smoothVolume.next env
    let f1 := s.lowpass.process env x
    let f2 := processBands env s.bands f1.1
    let f3 := s.highpass.process env f2.1
    let flt := f3.1 * vol.1
    let y := flt * wet.1 + x * (1 - wet.1)
    let s1 := { s with
      smoothDryWet := wet.2
      smoothVolume := vol.2
      lowpass := f1.2
      bands := f2.2
      highpass := f3.2 }
    let r := run env s1 xs
    (y :: r.1, r.2)

/-- `sampleRateChanged` (`PluginDSP.cpp` lines 506-518): re-derives the
clamped normalized cutoff of the low-pass, high-pass and every band from the
stored raw-Hz parameters over the new rate, and updates the sample rate of
`fSmoothVolume` only (the plugin base class records the new rate before
invoking the callback). -/
def sampleRateChanged (s : PluginState) (r : ℚ) : PluginState :=
  { s with
    sampleRate := r
    lowpass := s.lowpass.setFc
      (clampQ (s.params.getD kParamLowPassFreq 0 / r) (1/2000) (21/50))
    highpass := s.highpass.setFc
      (clampQ (s.params.getD kParamHighPassFreq 0 / r) (1/2000) (21/50))
    bands := (List.range kNumBands).map (fun i =>
      (s.bands.getD i Biquad.init).setFc
        (clampQ (s.params.getD (kParamBandsStart + i * kBandParameterCount + kBandParameterFreq) 0 / r)
          (1/2000) (21/50)))
    smoothVolume := s.smoothVolume.setSampleRate r }

/-! ## Specification-side definitions and range predicates -/

/-- The clamp interval for normalized cutoffs: `[0.0005, 0.42]`. -/
def fcInRange (x : ℚ) : Prop :=
  1/2000 ≤ x ∧ x ≤ 21/50

instance (x : ℚ) : Decidable (fcInRange x) := by
  unfold fcInRange
  infer_instance

/-- The clamp interval for Q: `[0.5, 1.0]`. -/
def qInRange (x : ℚ) : Prop :=
  1/2 ≤ x ∧ x ≤ 1

instance (x : ℚ) : Decidable (qInRange x) := by
  unfold qInRange
  infer_instance

/-- A configuration step respected the clamps on a filter: its cutoff was
either left alone or set to a value in `[0.0005, 0.42]`, and its Q was
either left alone or set to a value in `[0.5, 1]`. -/
def biquadClampOk (b bNew : Biquad) : Prop :=
  (bNew.fc = b.fc ∨ fcInRange bNew.fc) ∧ (bNew.q = b.q ∨ qInRange bNew.q)

/-- Follows the spec's words (§4.2): the Filter Bank pushes a sample
through the low-pass, then the bands in ascending index order, then the
high-pass, returning the filtered sample and the three updated filter
states. -/
def bankProcess (env : Env) (lp : Biquad) (bs : List Biquad) (hp : Biquad) (x : ℚ) :
    ℚ × Biquad × List Biquad × Biquad :=
  let l := lp.process env x
  let m := processBands env bs l.1
  let h := hp.process env m.1
  (h.1, l.2, m.2, h.2)

/-- Follows the spec's words (§4.5): for each sample obtain the next
smoothed dry/wet and volume values, run the sample through the Filter Bank,
scale by volume, then output the crossfade `wet*filtered + (1-wet)*dry`. -/
def specRun (env : Env) : PluginState → List ℚ → List ℚ × PluginState
  | s, [] => ([], s)
  | s, dry :: rest =>
    let wet := s.smoothDryWet.next env
    let vol := s.smoothVolume.next env
    let bank := bankProcess env s.lowpass s.bands s.highpass dry
    let filtered := bank.1 * vol.1
    let y := wet.1 * filtered + (1 - wet.1) * dry
    let s1 := { s with
      smoothDryWet := wet.2
      smoothVolume := vol.2
      lowpass := bank.2.1
      bands := bank.2.2.1
      highpass := bank.2.2.2 }
    let r := specRun env s1 rest
    (y :: r.1, r.2)

/-! ## Helper lemmas -/

theorem clampQ_le (v lo hi : ℚ) (h : lo ≤ hi) : clampQ v lo hi ≤ hi :=
  max_le h (min_le_right v hi)

theorem le_clampQ (v lo hi : ℚ) : lo ≤ clampQ v lo hi :=
  le_max_left lo (min v hi)

theorem getD_set_self {α : Type} (l : List α) (i : ℕ) (a d : α) (h : i < l.length) :
    (l.set i a).getD i d = a := by
  simp [List.getD_eq_getElem?_getD, List.getElem?_set_self h]

theorem getD_set_ne {α : Type} {i j : ℕ} (h : i ≠ j) (l : List α) (a d : α) :
    (l.set i a).getD j d = l.getD j d := by
  simp [List.getD_eq_getElem?_getD, List.getElem?_set_ne h]

theorem biquadClampOk_refl (b : Biquad) : biquadClampOk b b :=
  ⟨Or.inl rfl, Or.inl rfl⟩

theorem biquadClampOk_setFc_clamp (b : Biquad) (v : ℚ) :
    biquadClampOk b (b.setFc (clampQ v (1/2000) (21/50))) :=
  ⟨Or.inr ⟨le_clampQ v (1/2000) (21/50), clampQ_le v (1/2000) (21/50) (by norm_num)⟩, Or.inl rfl⟩

theorem biquadClampOk_setFc_lo (b : Biquad) : biquadClampOk b (b.setFc (1/2000)) :=
  ⟨Or.inr ⟨by norm_num [Biquad.setFc], by norm_num [Biquad.setFc]⟩, Or.inl rfl⟩

theorem biquadClampOk_setFc_hi (b : Biquad) : biquadClampOk b (b.setFc (21/50)) :=
  ⟨Or.inr ⟨by norm_num [Biquad.setFc], by norm_num [Biquad.setFc]⟩, Or.inl rfl⟩

theorem biquadClampOk_setQ_clamp (b : Biquad) (v : ℚ) :
    biquadClampOk b (b.setQ (clampQ v (1/2) 1)) :=
  ⟨Or.inl rfl, Or.inr ⟨le_clampQ v (1/2) 1, clampQ_le v (1/2) 1 (by norm_num)⟩⟩

theorem biquadClampOk_setPeakGain (b : Biquad) (g : ℚ) :
    biquadClampOk b (b.setPeakGain g) :=
  ⟨Or.inl rfl, Or.inl rfl⟩

/-- Every branch of `setParameterValue` leaves the parameter vector exactly
at `fParameters[index] = value` applied to the previous vector. -/
theorem setParameterValueTotal_params (env : Env) (s : PluginState) (i : ℕ) (v : ℚ) :
    (setParameterValueTotal env s i v).params = s.params.set i v := by
  unfold setParameterValueTotal reset
  dsimp only
  simp only [apply_ite PluginState.params, ite_self]

/-- No branch of `setParameterValue` changes the stored sample rate. -/
theorem setParameterValueTotal_sampleRate (env : Env) (s : PluginState) (i : ℕ) (v : ℚ) :
    (setParameterValueTotal env s i v).sampleRate = s.sampleRate := by
  unfold setParameterValueTotal reset
  dsimp only
  simp only [apply_ite PluginState.sampleRate, ite_self]

/-- With the dry/wet smoother fully settled at 0 (value and target both 0),
`run` reproduces the input block exactly. -/
theorem run_passthrough (env : Env) (s : PluginState) (xs : List ℚ)
    (h1 : s.smoothDryWet.value = 0) (h2 : s.smoothDryWet.target = 0) :
    (run env s xs).1 = xs := by
  induction xs generalizing s with
  | nil => rfl
  | cons x rest ih =>
    have hn : s.smoothDryWet.next env = (0, { s.smoothDryWet with value := 0 }) := by
      simp [Smoother.next, h1, h2]
    simp only [run, hn, List.cons.injEq]
    refine ⟨by ring, ih _ rfl h2⟩

/-! ## Claim theorems -/

/-- C1: the claim says an index at or beyond the declared parameter count is
rejected defensively as a no-op with no undefined behavior.  The code has no
bounds check: `setParameterValue` begins with `fParameters[index] = value`
and `getParameterValue` returns `fParameters[index]`, so index
`kParamCount` accesses the 33-element C array out of bounds (undefined
behavior, modelled as `none`) instead of being a defensive no-op. -/
theorem setParameterValue_oob_undefined (env : Env) (s : PluginState) (v : ℚ) :
    setParameterValue env s kParamCount v = none ∧
    getParameterValue s kParamCount = none := by
  constructor <;> simp [setParameterValue, getParameterValue]

/-- C2: the claim says `sampleRateChanged` recomputes the decay coefficient
of both smoothers for the new rate.  The code calls
`fSmoothVolume.setSampleRate(newSampleRate)` but never touches
`fSmoothDryWet`: after changing 48000 → 96000 the volume smoother is at
rate 96000 while the dry/wet smoother still derives its coefficient from
48000. -/
theorem sampleRateChanged_forgets_drywet (env : Env) :
    (sampleRateChanged (construct env 48000) 96000).smoothVolume.sampleRate = 96000 ∧
    (sampleRateChanged (construct env 48000) 96000).smoothDryWet.sampleRate = 48000 ∧
    (sampleRateChanged (construct env 48000) 96000).smoothDryWet.sampleRate ≠ 96000 := by
  refine ⟨rfl, rfl, ?_⟩
  intro h
  rw [show (sampleRateChanged (construct env 48000) 96000).smoothDryWet.sampleRate = 48000 from rfl] at h
  norm_num at h

/-- C4: `run` computes, for every frame of every block, exactly the
spec-side pipeline: next dry/wet and volume smoother values once per sample,
the sample pushed through the Filter Bank in the fixed order low-pass →
bands in ascending index order → high-pass, scaled by volume, and output as
`wet*filtered + (1-wet)*dry`. -/
theorem run_refines_spec_pipeline (env : Env) (s : PluginState) (xs : List ℚ) :
    run env s xs = specRun env s xs := by
  induction xs generalizing s with
  | nil => rfl
  | cons x rest ih =>
    simp only [run, specRun, bankProcess, ih, Prod.mk.injEq, List.cons.injEq]
    exact ⟨⟨by ring, trivial⟩, trivial⟩

/-- C5: setting the bypass parameter drives the dry/wet smoother target to 0
exactly when the value is above 0.5 (and to 1 otherwise); and once the
dry/wet smoother has settled at 0, every `run` output sample equals the raw
input sample. -/
theorem bypass_target_and_settled_passthrough (env : Env) (s : PluginState) (v : ℚ) (xs : List ℚ) :
    (setParameterValueTotal env s kParamBypass v).smoothDryWet.target
        = (if v > 1/2 then 0 else 1) ∧
    (s.smoothDryWet.value = 0 → s.smoothDryWet.target = 0 → (run env s xs).1 = xs) := by
  constructor
  · simp [setParameterValueTotal, kParamBypass, Smoother.setTargetValue]
  · exact fun h1 h2 => run_passthrough env s xs h1 h2

/-- C6: `activate()` snaps both smoothers to their targets, so the next
`next()` call on each returns exactly the target with no residual ramp, and
writing the reset parameter performs the same synchronous clear on both
smoothers. -/
theorem activate_snaps_smoothers (env : Env) (s : PluginState) (v : ℚ) :
    (activate s).smoothDryWet.value = s.smoothDryWet.target ∧
    (activate s).smoothVolume.value = s.smoothVolume.target ∧
    ((activate s).smoothDryWet.next env).1 = s.smoothDryWet.target ∧
    ((activate s).smoothVolume.next env).1 = s.smoothVolume.target ∧
    (setParameterValueTotal env s kParamReset v).smoothDryWet.value = s.smoothDryWet.target ∧
    (setParameterValueTotal env s kParamReset v).smoothVolume.value = s.smoothVolume.target ∧
    ((setParameterValueTotal env s kParamReset v).smoothDryWet.next env).1 = s.smoothDryWet.target ∧
    ((setParameterValueTotal env s kParamReset v).smoothVolume.next env).1 = s.smoothVolume.target := by
  refine ⟨?_, ?_, ?_, ?_, ?_, ?_, ?_, ?_⟩ <;>
    simp [activate, reset, setParameterValueTotal, kParamBypass, kParamReset,
      Smoother.clearToTargetValue, Smoother.next]

/-- C9: for every in-bounds index, `setParameterValue` stores the raw value
unclamped and a subsequent `getParameterValue` returns it exactly — even
though the side effect may use a clamped copy (the main-volume smoother
target is `db2coef` of the value clamped to `[-90, 30]`, while the stored
value stays raw). -/
theorem setParameterValue_stores_raw (env : Env) (s : PluginState) (i : ℕ) (v : ℚ)
    (hlen : s.params.length = kParamCount) (hi : i < kParamCount) :
    getParameterValue (setParameterValueTotal env s i v) i = some v ∧
    (setParameterValueTotal env s kParamMainVolume v).smoothVolume.target
        = db2coef env (clampQ v (-90) 30) := by
  constructor
  · have h2 : i < s.params.length := by rw [hlen]; exact hi
    have h3 : (s.params.set i v)[i]?.getD 0 = v := by
      rw [List.getElem?_set_self h2]
      rfl
    simp [getParameterValue, hi, setParameterValueTotal_params, h3]
  · simp [setParameterValueTotal, kParamMainVolume, kParamBypass, kParamReset,
      Smoother.setTargetValue]

/-- Witness for C9 at a concrete out-of-declared-range volume value. -/
theorem setParameterValue_stores_raw_witness :
    (construct defaultEnv 48000).params.length = kParamCount ∧
    kParamMainVolume < kParamCount ∧
    (getParameterValue
        (setParameterValueTotal defaultEnv (construct defaultEnv 48000) kParamMainVolume 100)
        kParamMainVolume = some 100 ∧
      (setParameterValueTotal defaultEnv (construct defaultEnv 48000) kParamMainVolume 100).smoothVolume.target
        = db2coef defaultEnv (clampQ 100 (-90) 30)) :=
  ⟨rfl, by decide,
    setParameterValue_stores_raw defaultEnv (construct defaultEnv 48000) kParamMainVolume 100
      rfl (by decide)⟩

/-- Witness for C5: construct at 48000, switch bypass on, hit reset (which
settles the dry/wet smoother at 0), then run a concrete block. -/
theorem bypass_target_and_settled_passthrough_witness :
    (setParameterValueTotal defaultEnv
        (setParameterValueTotal defaultEnv (construct defaultEnv 48000) kParamBypass 1)
        kParamReset 0).smoothDryWet.value = 0 ∧
    (setParameterValueTotal defaultEnv
        (setParameterValueTotal defaultEnv (construct defaultEnv 48000) kParamBypass 1)
        kParamReset 0).smoothDryWet.target = 0 ∧
    (run defaultEnv
        (setParameterValueTotal defaultEnv
          (setParameterValueTotal defaultEnv (construct defaultEnv 48000) kParamBypass 1)
          kParamReset 0)
        [5, -3]).1 = [5, -3] := by
  have h1 : (setParameterValueTotal defaultEnv
      (setParameterValueTotal defaultEnv (construct defaultEnv 48000) kParamBypass 1)
      kParamReset 0).smoothDryWet.value = 0 := by
    norm_num [setParameterValueTotal, kParamBypass, kParamReset, reset, construct,
      Smoother.clearToTargetValue, Smoother.setTargetValue, Smoother.setSampleRate,
      Smoother.setTimeConstant, Smoother.init]
  have h2 : (setParameterValueTotal defaultEnv
      (setParameterValueTotal defaultEnv (construct defaultEnv 48000) kParamBypass 1)
      kParamReset 0).smoothDryWet.target = 0 := by
    norm_num [setParameterValueTotal, kParamBypass, kParamReset, reset, construct,
      Smoother.clearToTargetValue, Smoother.setTargetValue, Smoother.setSampleRate,
      Smoother.setTimeConstant, Smoother.init]
  exact ⟨h1, h2,
    (bypass_target_and_settled_passthrough defaultEnv _ 1 [5, -3]).2 h1 h2⟩

/-- One-call clamp preservation for a band list entry: setting slot `K` to a
clamp-respecting modification of itself respects the clamps at every
position. -/
theorem bands_set_clampOk (bs : List Biquad) (K j : ℕ) (f : Biquad → Biquad)
    (hf : ∀ b, biquadClampOk b (f b)) :
    biquadClampOk (bs.getD j Biquad.init)
      ((bs.set K (f (bs.getD K Biquad.init))).getD j Biquad.init) := by
  by_cases hj : K = j
  · subst hj
    by_cases hl : K < bs.length
    · rw [getD_set_self bs K _ _ hl]
      exact hf _
    · rw [List.set_eq_of_length_le (le_of_not_lt hl)]
      exact biquadClampOk_refl _
  · rw [getD_set_ne hj]
    exact biquadClampOk_refl _

theorem biquadClampOk_ite (b : Biquad) (c : Prop) [Decidable c] (x y : Biquad)
    (hx : biquadClampOk b x) (hy : biquadClampOk b y) : biquadClampOk b (ite c x y) := by
  by_cases h : c
  · rw [if_pos h]
    exact hx
  · rw [if_neg h]
    exact hy

theorem clampOk_getD_ite (b : Biquad) (c : Prop) [Decidable c] (x y : List Biquad) (j : ℕ)
    (hx : biquadClampOk b (x.getD j Biquad.init)) (hy : biquadClampOk b (y.getD j Biquad.init)) :
    biquadClampOk b ((ite c x y).getD j Biquad.init) := by
  by_cases h : c
  · rw [if_pos h]
    exact hx
  · rw [if_neg h]
    exact hy

theorem getD_map_range {α : Type} (n j : ℕ) (hj : j < n) (f : ℕ → α) (d : α) :
    ((List.range n).map f).getD j d = f j := by
  rw [List.getD_eq_getElem?_getD, List.getElem?_map, List.getElem?_range hj]
  rfl

set_option maxHeartbeats 1000000 in
/-- C3 (amended): in every `setParameterValue` call and every
`sampleRateChanged` call, each Filter Unit's normalized cutoff is either
left untouched or set to a value clamped into `[0.0005, 0.42]`, and its Q is
either left untouched or set to a value clamped into `[0.5, 1.0]`.  (The
constructor is excluded: it applies `storedFreq / sampleRate` unclamped, see
the counterexample.) -/
theorem setParameter_and_rateChange_clamped (env : Env) (s : PluginState) (i : ℕ) (v r : ℚ) :
    biquadClampOk s.highpass (setParameterValueTotal env s i v).highpass ∧
    biquadClampOk s.lowpass (setParameterValueTotal env s i v).lowpass ∧
    (∀ j, biquadClampOk (s.bands.getD j Biquad.init)
        ((setParameterValueTotal env s i v).bands.getD j Biquad.init)) ∧
    biquadClampOk s.highpass (sampleRateChanged s r).highpass ∧
    biquadClampOk s.lowpass (sampleRateChanged s r).lowpass ∧
    (∀ j, j < kNumBands → biquadClampOk (s.bands.getD j Biquad.init)
        ((sampleRateChanged s r).bands.getD j Biquad.init)) := by
  refine ⟨?_, ?_, ?_, ?_, ?_, ?_⟩
  · unfold setParameterValueTotal reset
    dsimp only
    simp only [apply_ite PluginState.highpass]
    repeat'
      first
        | exact biquadClampOk_refl _
        | exact biquadClampOk_setFc_clamp _ _
        | exact biquadClampOk_setFc_lo _
        | exact biquadClampOk_setFc_hi _
        | exact biquadClampOk_setQ_clamp _ _
        | apply biquadClampOk_ite
  · unfold setParameterValueTotal reset
    dsimp only
    simp only [apply_ite PluginState.lowpass]
    repeat'
      first
        | exact biquadClampOk_refl _
        | exact biquadClampOk_setFc_clamp _ _
        | exact biquadClampOk_setFc_lo _
        | exact biquadClampOk_setFc_hi _
        | exact biquadClampOk_setQ_clamp _ _
        | apply biquadClampOk_ite
  · intro j
    unfold setParameterValueTotal reset
    dsimp only
    simp only [apply_ite PluginState.bands]
    repeat'
      first
        | exact biquadClampOk_refl _
        | exact bands_set_clampOk _ _ _ _ (fun b => biquadClampOk_setPeakGain b _)
        | exact bands_set_clampOk _ _ _ _ (fun b => biquadClampOk_setFc_clamp b _)
        | exact bands_set_clampOk _ _ _ _ (fun b => biquadClampOk_setQ_clamp b _)
        | apply clampOk_getD_ite
  · exact biquadClampOk_setFc_clamp _ _
  · exact biquadClampOk_setFc_clamp _ _
  · intro j hj
    unfold sampleRateChanged
    dsimp only
    rw [getD_map_range kNumBands j hj _ Biquad.init]
    exact biquadClampOk_setFc_clamp _ _

/-- Counterexample for C3 as stated: at construction with sample rate 48000
the high-pass cutoff is applied as the unclamped `20 / 48000 = 1/2400`,
which lies below the clamp floor `0.0005 = 1/2000`. -/
theorem construct_unclamped_cutoff :
    (construct defaultEnv 48000).highpass.fc = 1/2400 ∧
    ¬ fcInRange (construct defaultEnv 48000).highpass.fc := by
  constructor
  · norm_num [construct, Biquad.setBiquad, Biquad.init]
  · norm_num [construct, Biquad.setBiquad, Biquad.init, fcInRange]

/-- Witness for C3 (amended) at a concrete state and index. -/
theorem setParameter_and_rateChange_clamped_witness :
    (0 : ℕ) < kNumBands ∧
    biquadClampOk ((construct defaultEnv 48000).bands.getD 0 Biquad.init)
      ((sampleRateChanged (construct defaultEnv 48000) 96000).bands.getD 0 Biquad.init) :=
  ⟨by decide,
    (setParameter_and_rateChange_clamped defaultEnv (construct defaultEnv 48000)
        kParamHighPassQ (3/4) 96000).2.2.2.2.2 0 (by decide)⟩

set_option maxHeartbeats 2000000 in
/-- C7: for every valid index, calling `setParameterValue` twice in
succession with the same value leaves the whole DSP state (parameter vector,
all Filter Bank coefficients and delay registers, and both smoother states)
exactly as after calling it once. -/
theorem setParameterValue_idempotent (env : Env) (s : PluginState) (i : ℕ) (v : ℚ)
    (hbands : s.bands.length = kNumBands) (hi : i < kParamCount) :
    setParameterValueTotal env (setParameterValueTotal env s i v) i v
      = setParameterValueTotal env s i v := by
  have hb6 : s.bands.length = 6 := hbands
  have h33 : i < 33 := hi
  clear hbands hi
  interval_cases i <;>
  · simp [setParameterValueTotal, reset, kParamBypass, kParamReset, kParamMainVolume,
      kParamHighPassEnabled, kParamHighPassFreq, kParamHighPassQ, kParamBandsStart, kParamBandsEnd,
      kParamLowPassEnabled, kParamLowPassFreq, kParamLowPassQ, kNumBands,
      kBandParameterEnabled, kBandParameterGain, kBandParameterFreq, kBandParameterQ,
      kBandParameterCount, Smoother.setTargetValue, Smoother.clearToTargetValue,
      Biquad.setFc, Biquad.setQ, Biquad.setPeakGain, List.set_set, hb6]
    try split_ifs <;> (try simp_all [List.set_set, List.getElem?_set, hb6]) <;> (try linarith)

/-- Witness for C7 at a concrete state, index and value. -/
theorem setParameterValue_idempotent_witness :
    (construct defaultEnv 48000).bands.length = kNumBands ∧
    kParamHighPassQ < kParamCount ∧
    setParameterValueTotal defaultEnv
        (setParameterValueTotal defaultEnv (construct defaultEnv 48000) kParamHighPassQ (3/4))
        kParamHighPassQ (3/4)
      = setParameterValueTotal defaultEnv (construct defaultEnv 48000) kParamHighPassQ (3/4) :=
  ⟨rfl, by decide,
    setParameterValue_idempotent defaultEnv (construct defaultEnv 48000) kParamHighPassQ (3/4)
      rfl (by decide)⟩

set_option maxHeartbeats 1000000 in
/-- C8: toggling band `b`'s enable parameter changes only that band's
peak-gain term — to 0 dB when disabled (value ≤ 0.5), and to the stored gain
clamped into `[-12, 12]` when enabled — leaving the band's frequency, Q,
type and both delay registers, every other band, the high-pass and low-pass
filters, and both smoothers unchanged. -/
theorem band_enable_toggle_local (env : Env) (s : PluginState) (b : ℕ) (v : ℚ)
    (hb : b < kNumBands) :
    (setParameterValueTotal env s (kParamBandsStart + b * kBandParameterCount) v).highpass
        = s.highpass ∧
    (setParameterValueTotal env s (kParamBandsStart + b * kBandParameterCount) v).lowpass
        = s.lowpass ∧
    (setParameterValueTotal env s (kParamBandsStart + b * kBandParameterCount) v).smoothDryWet
        = s.smoothDryWet ∧
    (setParameterValueTotal env s (kParamBandsStart + b * kBandParameterCount) v).smoothVolume
        = s.smoothVolume ∧
    (∀ j, b ≠ j →
      (setParameterValueTotal env s (kParamBandsStart + b * kBandParameterCount) v).bands.getD j Biquad.init
        = s.bands.getD j Biquad.init) ∧
    (b < s.bands.length →
      (setParameterValueTotal env s (kParamBandsStart + b * kBandParameterCount) v).bands.getD b Biquad.init
        = (s.bands.getD b Biquad.init).setPeakGain
            (if v > 1/2 then
              clampQ (s.params.getD (kParamBandsStart + b * kBandParameterCount + kBandParameterGain) 0) (-12) 12
            else 0)) := by
  have hb6 : b < 6 := hb
  clear hb
  interval_cases b <;>
  · refine ⟨?_, ?_, ?_, ?_, fun j hj => ?_, fun hbl => ?_⟩ <;>
      simp_all [setParameterValueTotal, reset, kParamBypass, kParamReset, kParamMainVolume,
        kParamHighPassEnabled, kParamHighPassFreq, kParamHighPassQ, kParamBandsStart, kParamBandsEnd,
        kParamLowPassEnabled, kParamLowPassFreq, kParamLowPassQ, kNumBands,
        kBandParameterEnabled, kBandParameterGain, kBandParameterFreq, kBandParameterQ,
        kBandParameterCount, Smoother.setTargetValue, Smoother.clearToTargetValue,
        Biquad.setFc, Biquad.setQ, Biquad.setPeakGain, List.set_set, List.getElem?_set]

/-- Witness for C8 at band 0 with the enable value 1. -/
theorem band_enable_toggle_local_witness :
    (0 : ℕ) < kNumBands ∧
    (0 : ℕ) < (construct defaultEnv 48000).bands.length ∧
    (setParameterValueTotal defaultEnv (construct defaultEnv 48000)
        (kParamBandsStart + 0 * kBandParameterCount) 1).bands.getD 0 Biquad.init
      = ((construct defaultEnv 48000).bands.getD 0 Biquad.init).setPeakGain
          (if (1 : ℚ) > 1/2 then
            clampQ ((construct defaultEnv 48000).params.getD
              (kParamBandsStart + 0 * kBandParameterCount + kBandParameterGain) 0) (-12) 12
          else 0) :=
  ⟨by decide, by decide,
    (band_enable_toggle_local defaultEnv (construct defaultEnv 48000) 0 1 (by decide)).2.2.2.2.2
      (by decide)⟩

set_option maxHeartbeats 1000000 in
/-- C10: while a high-pass, low-pass or band enable flag is off (stored
value at most 0.5), setting that unit's frequency (for a band: its gain)
stores the raw value in the parameter vector but leaves the unit's filter
state untouched; the stored value is applied (clamped) only when the enable
flag is subsequently switched on. -/
theorem disabled_unit_param_deferred (env : Env) (s : PluginState) (v w : ℚ) (b : ℕ)
    (hb : b < kNumBands) (hlen : s.params.length = kParamCount) :
    (¬ (s.params.getD kParamHighPassEnabled 0 > 1/2) →
      (setParameterValueTotal env s kParamHighPassFreq v).highpass = s.highpass ∧
      (setParameterValueTotal env s kParamHighPassFreq v).params
        = s.params.set kParamHighPassFreq v ∧
      (w > 1/2 →
        (setParameterValueTotal env (setParameterValueTotal env s kParamHighPassFreq v)
            kParamHighPassEnabled w).highpass.fc
          = clampQ (v / s.sampleRate) (1/2000) (21/50))) ∧
    (¬ (s.params.getD kParamLowPassEnabled 0 > 1/2) →
      (setParameterValueTotal env s kParamLowPassFreq v).lowpass = s.lowpass ∧
      (setParameterValueTotal env s kParamLowPassFreq v).params
        = s.params.set kParamLowPassFreq v ∧
      (w > 1/2 →
        (setParameterValueTotal env (setParameterValueTotal env s kParamLowPassFreq v)
            kParamLowPassEnabled w).lowpass.fc
          = clampQ (v / s.sampleRate) (1/2000) (21/50))) ∧
    (¬ (s.params.getD (kParamBandsStart + b * kBandParameterCount) 0 > 1/2) →
      (setParameterValueTotal env s
          (kParamBandsStart + b * kBandParameterCount + kBandParameterGain) v).bands = s.bands ∧
      (setParameterValueTotal env s
          (kParamBandsStart + b * kBandParameterCount + kBandParameterGain) v).params
        = s.params.set (kParamBandsStart + b * kBandParameterCount + kBandParameterGain) v ∧
      (b < s.bands.length → w > 1/2 →
        ((setParameterValueTotal env
            (setParameterValueTotal env s
              (kParamBandsStart + b * kBandParameterCount + kBandParameterGain) v)
            (kParamBandsStart + b * kBandParameterCount) w).bands.getD b Biquad.init).peakGain
          = clampQ v (-12) 12)) := by
  have hb6 : b < 6 := hb
  have hl33 : s.params.length = 33 := hlen
  clear hb hlen
  interval_cases b <;>
  · refine ⟨fun hHP => ⟨?_, ?_, fun hw => ?_⟩, fun hLP => ⟨?_, ?_, fun hw => ?_⟩,
      fun hBand => ⟨?_, ?_, fun hbl hw => ?_⟩⟩ <;>
      simp_all [setParameterValueTotal, reset, kParamBypass, kParamReset, kParamMainVolume,
        kParamHighPassEnabled, kParamHighPassFreq, kParamHighPassQ, kParamBandsStart, kParamBandsEnd,
        kParamLowPassEnabled, kParamLowPassFreq, kParamLowPassQ, kNumBands,
        kBandParameterEnabled, kBandParameterGain, kBandParameterFreq, kBandParameterQ,
        kBandParameterCount, Smoother.setTargetValue, Smoother.clearToTargetValue,
        Biquad.setFc, Biquad.setQ, Biquad.setPeakGain, List.set_set, List.getElem?_set] <;>
      (try split_ifs) <;>
      (try (exfalso; linarith)) <;>
      (try simp_all [List.set_set, List.getElem?_set])

/-- Witness for C10 at band 0 on the freshly constructed state (all enable
flags are at their default 0). -/
theorem disabled_unit_param_deferred_witness :
    (0 : ℕ) < kNumBands ∧
    (construct defaultEnv 48000).params.length = kParamCount ∧
    ¬ ((construct defaultEnv 48000).params.getD kParamHighPassEnabled 0 > 1/2) ∧
    (setParameterValueTotal defaultEnv (construct defaultEnv 48000) kParamHighPassFreq 100).highpass
      = (construct defaultEnv 48000).highpass :=
  ⟨by decide, rfl,
    by
      show ¬ ((0 : ℚ) > 1/2)
      norm_num,
    ((disabled_unit_param_deferred defaultEnv (construct defaultEnv 48000) 100 1 0
        (by decide) rfl).1
      (by
        show ¬ ((0 : ℚ) > 1/2)
        norm_num)).1⟩

end ImGuiPlugin
